import Mathlib

/-!
Shallow embedding of `custom_components/dualmode_generic/climate.py`
(`DualModeGenericThermostat`): the control decision state machine of a
dual-mode generic thermostat.

Temperatures are modelled as rationals.  The surrounding platform
(`hass`) is modelled by an environment `Env` giving each entity its
current state string and the time it has held that state (seconds).
Actuator service calls and the fire-and-forget delayed fan tasks
(`asyncio.ensure_future(self.fan_on/off())`) are recorded as a command
trace.  Python's `UnboundLocalError` / `ValueError` / `TypeError` are
modelled with `Except String` / `Option`.
-/

namespace DualMode

/-- HVAC modes: `HVAC_MODE_OFF/HEAT/COOL/DRY/FAN_ONLY`. -/
inductive HVACMode
  | off
  | heat
  | cool
  | dry
  | fanOnly
deriving DecidableEq, Repr

/-- `fan_behavior` configuration: `FAN_MODE_COOL/HEAT/NEUTRAL`
(values "cooler"/"heater"/"neutral"). -/
inductive FanBehavior
  | coolLike
  | heatLike
  | neutral
deriving DecidableEq, Repr

/-- `dryer_behavior` configuration: `DRYER_MODE_COOL/HEAT/NEUTRAL`. -/
inductive DryerBehavior
  | coolLike
  | heatLike
  | neutral
deriving DecidableEq, Repr

/-- The `_fan_mode` field: `FAN_MODE_ON` ("on") or `FAN_MODE_AUTO` ("auto"). -/
inductive FanSetting
  | fanOn
  | auto
deriving DecidableEq, Repr

/-- Members of the `reverse_cycle` list:
`REVERSE_CYCLE_IS_HEATER/COOLER/FAN/DRYER`. -/
inductive ReverseCycleDev
  | heater
  | cooler
  | fan
  | dryer
deriving DecidableEq, Repr

/-- One observable side effect of the control object:
a synchronous `hass.services.async_call(HA_DOMAIN, SERVICE_TURN_ON/OFF, entity)`,
or the scheduling of a delayed fan task via `asyncio.ensure_future`
(`fan_on()` in `_async_heater_turn_on`, `fan_off()` in `_async_heater_turn_off`). -/
inductive Cmd
  | serviceOn (entity : String)
  | serviceOff (entity : String)
  | schedFanOn
  | schedFanOff
deriving DecidableEq, Repr

/-- The mutable state of a `DualModeGenericThermostat` instance
(the fields read and written by the control logic). -/
structure Thermostat where
  heater_entity_id : Option String
  cooler_entity_id : Option String
  fan_entity_id : Option String
  dryer_entity_id : Option String
  fan_behavior : FanBehavior
  dryer_behavior : DryerBehavior
  /-- `self._fan_mode` -/
  fan_setting : FanSetting
  reverse_cycle : List ReverseCycleDev
  /-- `self.min_cycle_duration`, in seconds; `none` = not configured.
  A configured zero duration is falsy in Python, mirrored below. -/
  min_cycle_duration : Option Nat
  hvac_mode : HVACMode
  /-- `self._active` -/
  active : Bool
  /-- `self._cur_temp` -/
  cur_temp : Option ℚ
  /-- `self._target_temp` -/
  target_temp : Option ℚ
  /-- `self._saved_target_temp` -/
  saved_target_temp : Option ℚ
  /-- `self._away_temp` -/
  away_temp : Option ℚ
  /-- `self._is_away` -/
  is_away : Bool
  cold_tolerance : ℚ
  hot_tolerance : ℚ
  /-- `self._min_temp` (raw configured value) -/
  min_temp_conf : Option ℚ
  /-- `self._max_temp` (raw configured value) -/
  max_temp_conf : Option ℚ

/-- The observable platform state (`hass.states`): each entity's current
state string and how long (seconds) it has been in that state. -/
structure Env where
  entityState : String → String
  heldFor : String → Nat

/-- `hass.states.is_state(dev, STATE_ON)` -/
def is_state_on (e : Env) (dev : String) : Bool :=
  e.entityState dev == "on"

/-- `_is_device_active`: any of cooler/heater/dryer is on.  The fan is
deliberately excluded (commented out in the source). -/
def is_device_active (e : Env) (t : Thermostat) : Bool :=
  let devices : List String :=
    ([] : List String)
      ++ (match t.cooler_entity_id with | some c => [c] | none => [])
      ++ (match t.heater_entity_id with | some h => [h] | none => [])
      ++ (match t.dryer_entity_id with | some d => [d] | none => [])
  (devices.map (is_state_on e)).any id

/-- `condition.state(hass, entity, wanted_state, duration)`: the entity is
currently in `wanted` and has been for at least `dur` seconds. -/
def condition_state (e : Env) (ent : Option String) (wanted : String)
    (dur : Nat) : Bool :=
  match ent with
  | none => false
  | some dev => e.entityState dev == wanted && dur ≤ e.heldFor dev

/-- `_async_fan_turn_on` -/
def fan_turn_on (t : Thermostat) : List Cmd :=
  match t.fan_entity_id with
  | some f => [Cmd.serviceOn f]
  | none => []

/-- `_async_fan_turn_off` -/
def fan_turn_off (t : Thermostat) : List Cmd :=
  match t.fan_entity_id with
  | some f => [Cmd.serviceOff f]
  | none => []

/-- `_async_heater_turn_on`: service call then
`asyncio.ensure_future(self.fan_on())`. -/
def heater_turn_on (t : Thermostat) : List Cmd :=
  match t.heater_entity_id with
  | some h => [Cmd.serviceOn h, Cmd.schedFanOn]
  | none => []

/-- `_async_heater_turn_off`: service call, then (outside the heater-configured
check) schedule `fan_off()` when `_fan_mode == FAN_MODE_AUTO`. -/
def heater_turn_off (t : Thermostat) : List Cmd :=
  (match t.heater_entity_id with
   | some h => [Cmd.serviceOff h]
   | none => [])
  ++ (if t.fan_setting = FanSetting.auto then [Cmd.schedFanOff] else [])

/-- `_async_cooler_turn_on`: when a cooler is configured, synchronously turn
the fan on first (no `_fan_mode` check in the source), then the cooler. -/
def cooler_turn_on (t : Thermostat) : List Cmd :=
  match t.cooler_entity_id with
  | some c => fan_turn_on t ++ [Cmd.serviceOn c]
  | none => []

/-- `_async_cooler_turn_off`: when `_fan_mode == FAN_MODE_AUTO`, synchronously
turn the fan off first, then the cooler. -/
def cooler_turn_off (t : Thermostat) : List Cmd :=
  (if t.fan_setting = FanSetting.auto then fan_turn_off t else [])
  ++ (match t.cooler_entity_id with
      | some c => [Cmd.serviceOff c]
      | none => [])

/-- `_async_dryer_turn_on` -/
def dryer_turn_on (t : Thermostat) : List Cmd :=
  match t.dryer_entity_id with
  | some d => [Cmd.serviceOn d]
  | none => []

/-- `_async_dryer_turn_off` -/
def dryer_turn_off (t : Thermostat) : List Cmd :=
  match t.dryer_entity_id with
  | some d => [Cmd.serviceOff d]
  | none => []

/-- First step of `_async_control_heating`: mark `_active` once both
temperatures are known. -/
def activate (t : Thermostat) : Thermostat :=
  if !t.active && t.cur_temp.isSome && t.target_temp.isSome then
    { t with active := true }
  else t

/-- The value the local variable `active_entity` receives inside the
`min_cycle_duration` block (four sequential `if` statements over the mode);
`none` means the variable is left unassigned. -/
def active_entity_for (t : Thermostat) : Option (Option String) :=
  if t.hvac_mode = HVACMode.cool then some t.cooler_entity_id
  else if t.hvac_mode = HVACMode.heat then some t.heater_entity_id
  else if t.hvac_mode = HVACMode.fanOnly then some t.fan_entity_id
  else if t.hvac_mode = HVACMode.dry then some t.dryer_entity_id
  else none

/-- The `min_cycle_duration` gate of `_async_control_heating` (run only when
`not force and time is None`).  Returns the (possibly unassigned) local
`active_entity` together with `long_enough`; referencing the unassigned
local raises `UnboundLocalError`. -/
def gate_check (e : Env) (t : Thermostat) (hasTime force : Bool) :
    Except String (Option (Option String) × Bool) :=
  if !force && !hasTime then
    match t.min_cycle_duration with
    | some dur =>
      if dur ≠ 0 then
        match active_entity_for t with
        | none => Except.error "UnboundLocalError"
        | some ent =>
          let wanted := if is_device_active e t then "on" else "off"
          Except.ok (some ent, condition_state e ent wanted dur)
      else Except.ok (none, true)
    | none => Except.ok (none, true)
  else Except.ok (none, true)

/-- The per-mode "turn on" command of the keep-alive re-assert chain. -/
def on_cmds_for_mode (t : Thermostat) : List Cmd :=
  if t.hvac_mode = HVACMode.cool then cooler_turn_on t
  else if t.hvac_mode = HVACMode.heat then heater_turn_on t
  else if t.hvac_mode = HVACMode.fanOnly then fan_turn_on t
  else if t.hvac_mode = HVACMode.dry then dryer_turn_on t
  else []

/-- The per-mode "turn off" command of the keep-alive re-assert chain. -/
def off_cmds_for_mode (t : Thermostat) : List Cmd :=
  if t.hvac_mode = HVACMode.cool then cooler_turn_off t
  else if t.hvac_mode = HVACMode.heat then heater_turn_off t
  else if t.hvac_mode = HVACMode.fanOnly then fan_turn_off t
  else if t.hvac_mode = HVACMode.dry then dryer_turn_off t
  else []

/-- The `if self._is_device_active:` ("when to turn off") branch of
`_async_control_heating`.  The final `elif time is not None` arm logs with
the local `active_entity`, raising `UnboundLocalError` when it was never
assigned. -/
def decide_active_branch (t : Thermostat) (activeEntity : Option (Option String))
    (hasTime : Bool) (too_cold too_hot : Prop)
    [Decidable too_cold] [Decidable too_hot] : Except String (List Cmd) :=
  if too_cold ∧ t.hvac_mode = HVACMode.cool then Except.ok (cooler_turn_off t)
  else if too_hot ∧ t.hvac_mode = HVACMode.heat then Except.ok (heater_turn_off t)
  else if t.hvac_mode = HVACMode.fanOnly then
    Except.ok
      (if too_cold ∧ t.fan_behavior = FanBehavior.coolLike then fan_turn_off t
       else if too_hot ∧ t.fan_behavior = FanBehavior.heatLike then fan_turn_off t
       else [])
  else if t.hvac_mode = HVACMode.dry then
    Except.ok
      (if too_cold ∧ t.dryer_behavior = DryerBehavior.coolLike then dryer_turn_off t
       else if too_hot ∧ t.dryer_behavior = DryerBehavior.heatLike then dryer_turn_off t
       else [])
  else if hasTime then
    match activeEntity with
    | none => Except.error "UnboundLocalError"
    | some _ => Except.ok (on_cmds_for_mode t)
  else Except.ok []

/-- The `else:` ("when to turn on") branch of `_async_control_heating`,
symmetric to `decide_active_branch`. -/
def decide_inactive_branch (t : Thermostat) (activeEntity : Option (Option String))
    (hasTime : Bool) (too_cold too_hot : Prop)
    [Decidable too_cold] [Decidable too_hot] : Except String (List Cmd) :=
  if too_hot ∧ t.hvac_mode = HVACMode.cool then Except.ok (cooler_turn_on t)
  else if too_cold ∧ t.hvac_mode = HVACMode.heat then Except.ok (heater_turn_on t)
  else if t.hvac_mode = HVACMode.fanOnly then
    Except.ok
      (if too_hot ∧ t.fan_behavior = FanBehavior.coolLike then fan_turn_on t
       else if too_cold ∧ t.fan_behavior = FanBehavior.heatLike then fan_turn_on t
       else [])
  else if t.hvac_mode = HVACMode.dry then
    Except.ok
      (if too_hot ∧ t.dryer_behavior = DryerBehavior.coolLike then dryer_turn_on t
       else if too_cold ∧ t.dryer_behavior = DryerBehavior.heatLike then dryer_turn_on t
       else [])
  else if hasTime then
    match activeEntity with
    | none => Except.error "UnboundLocalError"
    | some _ => Except.ok (off_cmds_for_mode t)
  else Except.ok []

/-- The two trailing unconditional steps of `_async_control_heating`
(neutral fan in FAN_ONLY, neutral dryer in DRY). -/
def neutral_tail (t : Thermostat) : List Cmd :=
  (if t.fan_behavior = FanBehavior.neutral ∧ t.hvac_mode = HVACMode.fanOnly
   then fan_turn_on t else [])
  ++ (if t.dryer_behavior = DryerBehavior.neutral ∧ t.hvac_mode = HVACMode.dry
      then dryer_turn_on t else [])

/-- `_async_control_heating(time, force)`.  `hasTime` models
`time is not None` (keep-alive invocation).  Returns the updated state and
the trace of issued commands, or the Python exception that escapes. -/
def control_heating (e : Env) (t0 : Thermostat) (hasTime force : Bool) :
    Except String (Thermostat × List Cmd) :=
  let t := activate t0
  if !t.active || t.hvac_mode = HVACMode.off then Except.ok (t, [])
  else
    match gate_check e t hasTime force with
    | Except.error s => Except.error s
    | Except.ok (activeEntity, longOk) =>
      if !longOk then Except.ok (t, [])
      else
        match t.cur_temp, t.target_temp with
        | some cur, some target =>
          let branch :=
            if is_device_active e t then
              decide_active_branch t activeEntity hasTime
                (target ≥ cur + t.cold_tolerance)
                (cur ≥ target + t.hot_tolerance)
            else
              decide_inactive_branch t activeEntity hasTime
                (target ≥ cur + t.cold_tolerance)
                (cur ≥ target + t.hot_tolerance)
          match branch with
          | Except.error s => Except.error s
          | Except.ok cmds => Except.ok (t, cmds ++ neutral_tail t)
        | _, _ => Except.error "TypeError"

/-- `async_set_hvac_mode`: set the mode, turn off the old mode's actuators
(honoring `reverse_cycle` exemptions except for OFF), then force-evaluate
(except for OFF, which skips the evaluation). -/
def set_hvac_mode (e : Env) (t0 : Thermostat) (m : HVACMode) :
    Except String (Thermostat × List Cmd) :=
  match m with
  | HVACMode.heat =>
    let t := { t0 with hvac_mode := HVACMode.heat }
    let offs :=
      if is_device_active e t then
        (if t.reverse_cycle.count ReverseCycleDev.cooler = 0
         then cooler_turn_off t else [])
        ++ (if t.reverse_cycle.count ReverseCycleDev.dryer = 0
            then dryer_turn_off t else [])
      else []
    match control_heating e t false true with
    | Except.error s => Except.error s
    | Except.ok (t2, cs) => Except.ok (t2, offs ++ cs)
  | HVACMode.cool =>
    let t := { t0 with hvac_mode := HVACMode.cool }
    let offs :=
      if is_device_active e t then
        (if t.reverse_cycle.count ReverseCycleDev.heater = 0
         then heater_turn_off t else [])
        ++ (if t.reverse_cycle.count ReverseCycleDev.dryer = 0
            then dryer_turn_off t else [])
      else []
    match control_heating e t false true with
    | Except.error s => Except.error s
    | Except.ok (t2, cs) => Except.ok (t2, offs ++ cs)
  | HVACMode.fanOnly =>
    let t := { t0 with hvac_mode := HVACMode.fanOnly }
    let offs :=
      if is_device_active e t then
        (if t.reverse_cycle.count ReverseCycleDev.cooler = 0
         then cooler_turn_off t else [])
        ++ (if t.reverse_cycle.count ReverseCycleDev.heater = 0
            then heater_turn_off t else [])
        ++ (if t.reverse_cycle.count ReverseCycleDev.dryer = 0
            then dryer_turn_off t else [])
      else []
    match control_heating e t false true with
    | Except.error s => Except.error s
    | Except.ok (t2, cs) => Except.ok (t2, offs ++ cs)
  | HVACMode.dry =>
    let t := { t0 with hvac_mode := HVACMode.dry }
    let offs :=
      if is_device_active e t then
        (if t.reverse_cycle.count ReverseCycleDev.cooler = 0
         then cooler_turn_off t else [])
        ++ (if t.reverse_cycle.count ReverseCycleDev.heater = 0
            then heater_turn_off t else [])
        ++ (if t.reverse_cycle.count ReverseCycleDev.fan = 0
            then fan_turn_off t else [])
      else []
    match control_heating e t false true with
    | Except.error s => Except.error s
    | Except.ok (t2, cs) => Except.ok (t2, offs ++ cs)
  | HVACMode.off =>
    let t := { t0 with hvac_mode := HVACMode.off }
    let offs :=
      if is_device_active e t then
        heater_turn_off t ++ cooler_turn_off t
        ++ (if t.fan_setting = FanSetting.auto then fan_turn_off t else [])
        ++ dryer_turn_off t
      else []
    Except.ok (t, offs)

/-- What `_async_sensor_changed` observes of the sensor state object:
unavailable/unknown, or an arbitrary state string whose `float(...)`
parse either succeeds (`reading (some q)`) or raises `ValueError`
(`reading none`, a non-numeric string). -/
inductive SensorState
  | unavailable
  | unknown
  | reading (parsed : Option ℚ)
deriving DecidableEq

/-- `_async_update_temp`: `float(state.state)` with `ValueError` caught and
logged, leaving `_cur_temp` unchanged. -/
def update_temp (t : Thermostat) (s : SensorState) : Thermostat :=
  match s with
  | SensorState.reading (some q) => { t with cur_temp := some q }
  | SensorState.reading none => t
  | SensorState.unavailable => t
  | SensorState.unknown => t

/-- `_async_sensor_changed`: skip `None`/unavailable/unknown states
entirely; otherwise update the temperature and run the control evaluation.
The final boolean records whether `_async_control_heating` was invoked. -/
def sensor_changed (e : Env) (t : Thermostat) (new_state : Option SensorState) :
    Except String (Thermostat × List Cmd × Bool) :=
  match new_state with
  | none => Except.ok (t, [], false)
  | some SensorState.unavailable => Except.ok (t, [], false)
  | some SensorState.unknown => Except.ok (t, [], false)
  | some (SensorState.reading p) =>
    let t1 := update_temp t (SensorState.reading p)
    match control_heating e t1 false false with
    | Except.error s => Except.error s
    | Except.ok (t2, cs) => Except.ok (t2, cs, true)

/-- Preset argument of `async_set_preset_mode`: `PRESET_AWAY` or `PRESET_NONE`. -/
inductive Preset
  | away
  | presetNone
deriving DecidableEq

/-- `async_set_preset_mode`. -/
def set_preset_mode (e : Env) (t : Thermostat) (p : Preset) :
    Except String (Thermostat × List Cmd) :=
  if p = Preset.away ∧ !t.is_away then
    let t1 := { t with
      is_away := true
      saved_target_temp := t.target_temp
      target_temp := t.away_temp }
    control_heating e t1 false true
  else if p = Preset.presetNone ∧ t.is_away then
    let t1 := { t with
      is_away := false
      target_temp := t.saved_target_temp }
    control_heating e t1 false true
  else Except.ok (t, [])

/-- Python's `list.remove`: drop the first occurrence, `none` when the value
is absent (`ValueError`). -/
def removeFirst : List HVACMode → HVACMode → Option (List HVACMode)
  | [], _ => none
  | x :: xs, a =>
    if x = a then some xs else (removeFirst xs a).map (fun l => x :: l)

/-- The `_hvac_list` construction in `__init__` (lines 249-259): start from
the full template, unconditionally remove `FAN_ONLY` ("temp remove fan for
debugging"), then remove each mode whose entity is not configured.  `none`
models the `ValueError` of a failed `list.remove`. -/
def init_hvac_list (heater cooler fan dryer : Option String) :
    Option (List HVACMode) := do
  let l0 := [HVACMode.cool, HVACMode.heat, HVACMode.dry, HVACMode.fanOnly,
    HVACMode.off]
  let l1 ← removeFirst l0 HVACMode.fanOnly
  let l2 ← if cooler.isNone then removeFirst l1 HVACMode.cool else some l1
  let l3 ← if heater.isNone then removeFirst l2 HVACMode.heat else some l2
  let l4 ← if fan.isNone then removeFirst l3 HVACMode.fanOnly else some l3
  let l5 ← if dryer.isNone then removeFirst l4 HVACMode.dry else some l4
  some l5

/-- The `min_temp` property: configured value, else the platform base-class
default (7 for a Celsius `ClimateEntity`). -/
def min_temp_prop (t : Thermostat) : ℚ := t.min_temp_conf.getD 7

/-- The `max_temp` property: configured value, else the platform base-class
default (35 for a Celsius `ClimateEntity`). -/
def max_temp_prop (t : Thermostat) : ℚ := t.max_temp_conf.getD 35

/-- Target-temperature fallback of `async_added_to_hass` when an old state
exists but carries no `ATTR_TEMPERATURE` (lines 320-338).  `mode` is
`self._hvac_mode` at that point (possibly `None`), `saved_attr` the restored
attribute.  The four mode tests are sequential `if` statements with an
`else` only on the last one, so the earlier assignments are dead stores. -/
def restore_target_old_state (t : Thermostat) (mode : Option HVACMode)
    (saved_attr : Option ℚ) : Option ℚ :=
  if t.target_temp.isSome then t.target_temp
  else
    match saved_attr with
    | some v => some v
    | none =>
      let tt1 := if mode = some HVACMode.cool
        then some (max_temp_prop t) else t.target_temp
      let tt2 := if mode = some HVACMode.fanOnly
        then some (max_temp_prop t) else tt1
      let _tt3 := if mode = some HVACMode.heat
        then some (min_temp_prop t) else tt2
      if mode = some HVACMode.dry then t.min_temp_conf
      else some (min_temp_prop t)

/-- Target-temperature fallback of `async_added_to_hass` when no old state
exists (lines 346-356): the same sequential `if` chain, with the DRY branch
using the `min_temp` property. -/
def restore_target_no_old_state (t : Thermostat) (mode : Option HVACMode) :
    Option ℚ :=
  if t.target_temp.isSome then t.target_temp
  else
    let tt1 := if mode = some HVACMode.cool
      then some (max_temp_prop t) else t.target_temp
    let tt2 := if mode = some HVACMode.fanOnly
      then some (max_temp_prop t) else tt1
    let _tt3 := if mode = some HVACMode.heat
      then some (min_temp_prop t) else tt2
    if mode = some HVACMode.dry then some (min_temp_prop t)
    else some (min_temp_prop t)


theorem activate_of_active (t : Thermostat) (h : t.active = true) :
    activate t = t := by
  unfold activate
  simp [h]

theorem activate_active (t : Thermostat) :
    (activate t).active = (t.active || (t.cur_temp.isSome && t.target_temp.isSome)) := by
  unfold activate
  cases ha : t.active <;> cases hc : t.cur_temp.isSome <;>
    cases hd : t.target_temp.isSome <;> simp [ha, hc, hd]

theorem activate_cur_temp (t : Thermostat) :
    (activate t).cur_temp = t.cur_temp := by
  unfold activate; split <;> rfl

theorem activate_target_temp (t : Thermostat) :
    (activate t).target_temp = t.target_temp := by
  unfold activate; split <;> rfl

theorem activate_hvac_mode (t : Thermostat) :
    (activate t).hvac_mode = t.hvac_mode := by
  unfold activate; split <;> rfl

theorem activate_is_away (t : Thermostat) :
    (activate t).is_away = t.is_away := by
  unfold activate; split <;> rfl

theorem activate_saved_target_temp (t : Thermostat) :
    (activate t).saved_target_temp = t.saved_target_temp := by
  unfold activate; split <;> rfl

theorem activate_away_temp (t : Thermostat) :
    (activate t).away_temp = t.away_temp := by
  unfold activate; split <;> rfl

theorem active_entity_for_ne_off (t : Thermostat) (h : t.hvac_mode ≠ HVACMode.off) :
    ∃ ent, active_entity_for t = some ent := by
  unfold active_entity_for
  cases hm : t.hvac_mode <;> simp [hm] at h ⊢

theorem gate_check_isOk (e : Env) (t : Thermostat) (hasTime force : Bool)
    (h : t.hvac_mode ≠ HVACMode.off) :
    ∃ ae lg, gate_check e t hasTime force = Except.ok (ae, lg) := by
  obtain ⟨ent, hent⟩ := active_entity_for_ne_off t h
  unfold gate_check
  split
  · cases hmc : t.min_cycle_duration with
    | none => exact ⟨none, true, rfl⟩
    | some dur =>
      by_cases hd : dur = 0
      · simp [hd]
      · simp [hd, hent]
  · exact ⟨none, true, rfl⟩

theorem decide_active_branch_noTime_ok (t : Thermostat)
    (ae : Option (Option String)) (tc th : Prop) [Decidable tc] [Decidable th] :
    ∃ cs, decide_active_branch t ae false tc th = Except.ok cs := by
  unfold decide_active_branch
  split_ifs <;> first | exact ⟨_, rfl⟩ | contradiction

theorem decide_inactive_branch_noTime_ok (t : Thermostat)
    (ae : Option (Option String)) (tc th : Prop) [Decidable tc] [Decidable th] :
    ∃ cs, decide_inactive_branch t ae false tc th = Except.ok cs := by
  unfold decide_inactive_branch
  split_ifs <;> first | exact ⟨_, rfl⟩ | contradiction

theorem control_heating_early (e : Env) (t0 : Thermostat) (ht f : Bool)
    (h : (activate t0).active = false ∨ (activate t0).hvac_mode = HVACMode.off) :
    control_heating e t0 ht f = Except.ok (activate t0, []) := by
  have hc : (!(activate t0).active
      || decide ((activate t0).hvac_mode = HVACMode.off)) = true := by
    rcases h with h | h <;> simp [h]
  simp [control_heating, hc]

theorem control_heating_main (e : Env) (t0 : Thermostat) (ht f : Bool)
    (hact : (activate t0).active = true)
    (hmode : (activate t0).hvac_mode ≠ HVACMode.off)
    (ae : Option (Option String)) (lg : Bool)
    (hgate : gate_check e (activate t0) ht f = Except.ok (ae, lg))
    (cur target : ℚ)
    (hcur : (activate t0).cur_temp = some cur)
    (htar : (activate t0).target_temp = some target) :
    control_heating e t0 ht f =
      (if !lg then Except.ok (activate t0, [])
       else
        match (if is_device_active e (activate t0) then
                decide_active_branch (activate t0) ae ht
                  (target ≥ cur + (activate t0).cold_tolerance)
                  (cur ≥ target + (activate t0).hot_tolerance)
              else
                decide_inactive_branch (activate t0) ae ht
                  (target ≥ cur + (activate t0).cold_tolerance)
                  (cur ≥ target + (activate t0).hot_tolerance)) with
        | Except.error s => Except.error s
        | Except.ok cmds =>
          Except.ok (activate t0, cmds ++ neutral_tail (activate t0))) := by
  have hc : (!(activate t0).active
      || decide ((activate t0).hvac_mode = HVACMode.off)) = false := by
    simp [hact, hmode]
  simp only [control_heating, hc, hgate, hcur, htar, Bool.false_eq_true,
    if_false]

theorem control_noTime_ok (e : Env) (s : Thermostat) (force : Bool)
    (h : s.active = true → s.cur_temp.isSome ∧ s.target_temp.isSome) :
    ∃ cmds, control_heating e s false force = Except.ok (activate s, cmds) := by
  by_cases hact : (activate s).active = true
  · by_cases hmode : (activate s).hvac_mode = HVACMode.off
    · exact ⟨[], control_heating_early e s false force (Or.inr hmode)⟩
    · have htemps : s.cur_temp.isSome ∧ s.target_temp.isSome := by
        rcases Bool.or_eq_true_iff.mp ((activate_active s) ▸ hact) with ha | hb
        · exact h ha
        · exact ⟨(Bool.and_eq_true_iff.mp hb).1, (Bool.and_eq_true_iff.mp hb).2⟩
      obtain ⟨cur, hcur⟩ := Option.isSome_iff_exists.mp htemps.1
      obtain ⟨target, htar⟩ := Option.isSome_iff_exists.mp htemps.2
      obtain ⟨ae, lg, hgate⟩ := gate_check_isOk e (activate s) false force hmode
      have hmain := control_heating_main e s false force hact hmode ae lg hgate
        cur target ((activate_cur_temp s).trans hcur) ((activate_target_temp s).trans htar)
      by_cases hlg : lg = true
      · cases hdev : is_device_active e (activate s) with
        | false =>
          obtain ⟨cs, hcs⟩ := decide_inactive_branch_noTime_ok (activate s) ae
            (target ≥ cur + (activate s).cold_tolerance)
            (cur ≥ target + (activate s).hot_tolerance)
          exact ⟨cs ++ neutral_tail (activate s), by
            rw [hmain]; simp [hlg, hdev, hcs]⟩
        | true =>
          obtain ⟨cs, hcs⟩ := decide_active_branch_noTime_ok (activate s) ae
            (target ≥ cur + (activate s).cold_tolerance)
            (cur ≥ target + (activate s).hot_tolerance)
          exact ⟨cs ++ neutral_tail (activate s), by
            rw [hmain]; simp [hlg, hdev, hcs]⟩
      · exact ⟨[], by rw [hmain]; simp [Bool.not_eq_true] at hlg; simp [hlg]⟩
  · exact ⟨[], control_heating_early e s false force
      (Or.inl (Bool.not_eq_true _ ▸ hact))⟩

/-! ## Concrete fixtures used by witnesses and counterexamples -/

/-- Environment in which every entity is "off" and has held its state for a
long time. -/
def envAllOff : Env where
  entityState := fun _ => "off"
  heldFor := fun _ => 100000

/-- Environment in which every entity is "on" and has held its state for a
long time. -/
def envAllOn : Env where
  entityState := fun _ => "on"
  heldFor := fun _ => 100000

/-- A fully configured thermostat in HEAT mode with the spec's example
setpoint and tolerances (target 21.0, tolerances 0.3). -/
def exampleT : Thermostat where
  heater_entity_id := some "switch.heater"
  cooler_entity_id := some "switch.cooler"
  fan_entity_id := some "switch.fan"
  dryer_entity_id := some "switch.dryer"
  fan_behavior := FanBehavior.neutral
  dryer_behavior := DryerBehavior.neutral
  fan_setting := FanSetting.auto
  reverse_cycle := []
  min_cycle_duration := none
  hvac_mode := HVACMode.heat
  active := true
  cur_temp := some 20.6
  target_temp := some 21
  saved_target_temp := none
  away_temp := some 16
  is_away := false
  cold_tolerance := 0.3
  hot_tolerance := 0.3
  min_temp_conf := some 18
  max_temp_conf := some 30

/-! ## Claims -/

/-- C1: an evaluation that reaches the hysteresis step in HEAT mode turns the
heater on exactly when `target_temperature >= current_temperature +
cold_tolerance` (device off) and off exactly when `current_temperature >=
target_temperature + hot_tolerance` (device on); both comparisons are
inclusive (`≥`). -/
theorem heat_mode_hysteresis (e : Env) (t : Thermostat) (cur target : ℚ)
    (hact : t.active = true) (hmode : t.hvac_mode = HVACMode.heat)
    (hcur : t.cur_temp = some cur) (htar : t.target_temp = some target) :
    control_heating e t false true =
      Except.ok (t,
        if is_device_active e t then
          (if cur ≥ target + t.hot_tolerance then heater_turn_off t else [])
        else
          (if target ≥ cur + t.cold_tolerance then heater_turn_on t else [])) := by
  have hat : activate t = t := activate_of_active t hact
  have hmain := control_heating_main e t false true
    (by rw [hat]; exact hact)
    (by rw [hat, hmode]; simp)
    none true (by simp [gate_check]) cur target
    (by rw [hat]; exact hcur) (by rw [hat]; exact htar)
  rw [hat] at hmain
  rw [hmain]
  by_cases hdev : is_device_active e t = true
  · by_cases hth : cur ≥ target + t.hot_tolerance <;>
      simp [hdev, decide_active_branch, hmode, neutral_tail, hth]
  · by_cases hcold : target ≥ cur + t.cold_tolerance <;>
      simp [hdev, decide_inactive_branch, hmode, neutral_tail, hcold]

/-- C1 witness: with target 21.0 and tolerances 0.3, a reading of 20.6 with
the heater off turns the heater on (21.0 ≥ 20.9), and a reading of 21.4 with
the heater on turns it off (21.4 ≥ 21.3). -/
theorem heat_mode_hysteresis_witness :
    control_heating envAllOff exampleT false true =
      Except.ok (exampleT, [Cmd.serviceOn "switch.heater", Cmd.schedFanOn]) ∧
    control_heating envAllOn { exampleT with cur_temp := some 21.4 } false true =
      Except.ok ({ exampleT with cur_temp := some 21.4 },
        [Cmd.serviceOff "switch.heater", Cmd.schedFanOff]) := by
  constructor
  · have h := heat_mode_hysteresis envAllOff exampleT 20.6 21 rfl rfl rfl rfl
    rw [h]
    norm_num +decide [is_device_active, is_state_on, envAllOff, exampleT,
      heater_turn_on]
  · have h := heat_mode_hysteresis envAllOn
      { exampleT with cur_temp := some 21.4 } 21.4 21 rfl rfl rfl rfl
    rw [h]
    norm_num +decide [is_device_active, is_state_on, envAllOn, exampleT,
      heater_turn_off]

/-- C6: when either temperature is still unset (so `_active` is still false),
or the mode is OFF, the control evaluation returns without issuing any
actuator command and without an error. -/
theorem no_command_when_unset_or_off (e : Env) (t : Thermostat)
    (hasTime force : Bool)
    (h : (t.active = false ∧ (t.cur_temp = none ∨ t.target_temp = none))
        ∨ t.hvac_mode = HVACMode.off) :
    ∃ t2, control_heating e t hasTime force = Except.ok (t2, []) := by
  refine ⟨activate t, control_heating_early e t hasTime force ?_⟩
  rcases h with ⟨ha, hn⟩ | hoff
  · left
    rw [activate_active]
    rcases hn with hn | hn <;> simp [ha, hn]
  · right
    rw [activate_hvac_mode]
    exact hoff

/-- C6 witness: a sensor-less thermostat (current temperature unset, not yet
active) produces no command. -/
theorem no_command_when_unset_or_off_witness :
    ∃ t2, control_heating envAllOff
      { exampleT with active := false, cur_temp := none } false false =
      Except.ok (t2, []) :=
  no_command_when_unset_or_off envAllOff
    { exampleT with active := false, cur_temp := none } false false
    (Or.inl ⟨rfl, Or.inl rfl⟩)

/-- C4: a non-forced, non-keep-alive evaluation in HEAT mode with
`min_cycle_duration` configured aborts with no command (and no error) when
the heater has been in its current state for less than the configured
duration, even though the hysteresis condition is met; the identical
evaluation with `force=True` bypasses the gate and issues the heater-on
command. -/
theorem min_cycle_gate (e : Env) (t : Thermostat) (ent : String)
    (cur target : ℚ) (d : Nat)
    (hact : t.active = true) (hmode : t.hvac_mode = HVACMode.heat)
    (hent : t.heater_entity_id = some ent)
    (hmc : t.min_cycle_duration = some d) (hd : d ≠ 0)
    (hheld : e.heldFor ent < d)
    (hcur : t.cur_temp = some cur) (htar : t.target_temp = some target)
    (hdev : is_device_active e t = false)
    (hcold : target ≥ cur + t.cold_tolerance) :
    control_heating e t false false = Except.ok (t, []) ∧
    control_heating e t false true =
      Except.ok (t, [Cmd.serviceOn ent, Cmd.schedFanOn]) := by
  have hat : activate t = t := activate_of_active t hact
  constructor
  · have hcs : condition_state e (some ent) "off" d = false := by
      simp [condition_state]
      intro _
      omega
    have hgate : gate_check e t false false =
        Except.ok (some (some ent), false) := by
      simp [gate_check, hmc, hd, active_entity_for, hmode, hent, hdev, hcs]
    have hmain := control_heating_main e t false false
      (by rw [hat]; exact hact)
      (by rw [hat, hmode]; simp)
      (some (some ent)) false (by rw [hat]; exact hgate) cur target
      (by rw [hat]; exact hcur) (by rw [hat]; exact htar)
    rw [hat] at hmain
    rw [hmain]
    simp
  · have hgate : gate_check e t false true = Except.ok (none, true) := by
      simp [gate_check]
    have hmain := control_heating_main e t false true
      (by rw [hat]; exact hact)
      (by rw [hat, hmode]; simp)
      none true (by rw [hat]; exact hgate) cur target
      (by rw [hat]; exact hcur) (by rw [hat]; exact htar)
    rw [hat] at hmain
    rw [hmain]
    simp [hdev, decide_inactive_branch, hmode, hcold, heater_turn_on, hent,
      neutral_tail]

/-- Environment for the C4 witness: everything off, and every entity has
been in its current state for only 120 seconds (2 minutes). -/
def envShortCycle : Env where
  entityState := fun _ => "off"
  heldFor := fun _ => 120

/-- C4 witness: `min_cycle_duration` of 600 seconds (10 minutes), actuator
state held for 120 seconds (2 minutes), hysteresis condition met
(21.0 ≥ 20.6 + 0.3): the non-forced evaluation issues nothing, the forced
one turns the heater on. -/
theorem min_cycle_gate_witness :
    control_heating envShortCycle
      { exampleT with min_cycle_duration := some 600 } false false =
      Except.ok ({ exampleT with min_cycle_duration := some 600 }, []) ∧
    control_heating envShortCycle
      { exampleT with min_cycle_duration := some 600 } false true =
      Except.ok ({ exampleT with min_cycle_duration := some 600 },
        [Cmd.serviceOn "switch.heater", Cmd.schedFanOn]) := by
  have h := min_cycle_gate envShortCycle
    { exampleT with min_cycle_duration := some 600 } "switch.heater"
    20.6 21 600 rfl rfl rfl rfl (by decide) (by decide) rfl rfl
    (by norm_num +decide [is_device_active, is_state_on, envShortCycle,
      exampleT])
    (by norm_num [exampleT])
  exact h

/-- C5: setting the mode to OFF while the device is active issues off
commands to the heater, the cooler and the dehumidifier, issues an off
command to the fan exactly when `_fan_mode` is AUTO, and does so for every
`reverse_cycle` configuration. -/
theorem set_mode_off_all_off (e : Env) (t : Thermostat)
    (h hc hf hd : String)
    (hdev : is_device_active e t = true)
    (hh : t.heater_entity_id = some h)
    (hco : t.cooler_entity_id = some hc)
    (hfa : t.fan_entity_id = some hf)
    (hdr : t.dryer_entity_id = some hd)
    (hne1 : hf ≠ h) (hne2 : hf ≠ hc) (hne3 : hf ≠ hd) :
    ∃ cmds, set_hvac_mode e t HVACMode.off =
        Except.ok ({ t with hvac_mode := HVACMode.off }, cmds) ∧
      Cmd.serviceOff h ∈ cmds ∧ Cmd.serviceOff hc ∈ cmds ∧
      Cmd.serviceOff hd ∈ cmds ∧
      (t.fan_setting = FanSetting.auto → Cmd.serviceOff hf ∈ cmds) ∧
      (t.fan_setting ≠ FanSetting.auto → Cmd.serviceOff hf ∉ cmds) := by
  have hdev3 : is_device_active e { t with hvac_mode := HVACMode.off } =
      true := hdev
  cases hfs : t.fan_setting with
  | auto =>
    refine ⟨[Cmd.serviceOff h, Cmd.schedFanOff, Cmd.serviceOff hf,
      Cmd.serviceOff hc, Cmd.serviceOff hf, Cmd.serviceOff hd], ?_, ?_⟩
    · simp only [set_hvac_mode]
      rw [if_pos hdev3]
      simp [heater_turn_off, cooler_turn_off, fan_turn_off, dryer_turn_off,
        hh, hco, hfa, hdr, hfs]
    · simp [hfs]
  | fanOn =>
    refine ⟨[Cmd.serviceOff h, Cmd.serviceOff hc, Cmd.serviceOff hd],
      ?_, ?_⟩
    · simp only [set_hvac_mode]
      rw [if_pos hdev3]
      simp [heater_turn_off, cooler_turn_off, fan_turn_off, dryer_turn_off,
        hh, hco, hfa, hdr, hfs]
    · simp [hfs]
      exact ⟨hne1, hne2, hne3⟩

/-- C5 witness: with all four actuators configured and the device active,
OFF issues off-commands to heater, cooler and dryer, and (fan mode AUTO)
to the fan. -/
theorem set_mode_off_all_off_witness :
    ∃ cmds, set_hvac_mode envAllOn exampleT HVACMode.off =
        Except.ok ({ exampleT with hvac_mode := HVACMode.off }, cmds) ∧
      Cmd.serviceOff "switch.heater" ∈ cmds ∧
      Cmd.serviceOff "switch.cooler" ∈ cmds ∧
      Cmd.serviceOff "switch.dryer" ∈ cmds ∧
      (exampleT.fan_setting = FanSetting.auto →
        Cmd.serviceOff "switch.fan" ∈ cmds) ∧
      (exampleT.fan_setting ≠ FanSetting.auto →
        Cmd.serviceOff "switch.fan" ∉ cmds) :=
  set_mode_off_all_off envAllOn exampleT
    "switch.heater" "switch.cooler" "switch.fan" "switch.dryer"
    (by norm_num +decide [is_device_active, is_state_on, envAllOn, exampleT])
    rfl rfl rfl rfl (by decide) (by decide) (by decide)

/-- C2 (code bug): a keep-alive evaluation (`time` not `None`) in COOL mode
with the device on and no turn-off condition matched does NOT re-issue the
"on" command: the off-chain falls through to the keep-alive arm, whose log
statement references the local `active_entity` that was never assigned
(it is assigned only inside the `min_cycle_duration` block, which is gated
by `not force and time is None`), so the evaluation raises
`UnboundLocalError` instead of completing. -/
theorem keep_alive_unbound_local (e : Env) (t : Thermostat)
    (cur target : ℚ)
    (hact : t.active = true) (hmode : t.hvac_mode = HVACMode.cool)
    (hcur : t.cur_temp = some cur) (htar : t.target_temp = some target)
    (hdev : is_device_active e t = true)
    (hncold : ¬(target ≥ cur + t.cold_tolerance)) :
    control_heating e t true false = Except.error "UnboundLocalError" := by
  have hat : activate t = t := activate_of_active t hact
  have hgate : gate_check e t true false = Except.ok (none, true) := by
    simp [gate_check]
  have hmain := control_heating_main e t true false
    (by rw [hat]; exact hact)
    (by rw [hat, hmode]; simp)
    none true (by rw [hat]; exact hgate) cur target
    (by rw [hat]; exact hcur) (by rw [hat]; exact htar)
  rw [hat] at hmain
  rw [hmain]
  simp [hdev, decide_active_branch, hmode, hncold]

/-- C2 witness: keep-alive tick, COOL mode, cooler on, temperature inside
the band (24.0 with target 24.0 and tolerance 0.3): the code raises
`UnboundLocalError` instead of re-asserting the cooler-on command. -/
theorem keep_alive_unbound_local_witness :
    control_heating envAllOn
      { exampleT with
        hvac_mode := HVACMode.cool
        cur_temp := some 24
        target_temp := some 24 } true false =
      Except.error "UnboundLocalError" :=
  keep_alive_unbound_local envAllOn
    { exampleT with
      hvac_mode := HVACMode.cool
      cur_temp := some 24
      target_temp := some 24 } 24 24 rfl rfl rfl rfl
    (by norm_num +decide [is_device_active, is_state_on, envAllOn, exampleT])
    (by norm_num [exampleT])

/-- C3 (code bug): the startup target-temperature fallback never yields
`max_temp`.  With mode COOL (or FAN_ONLY), configured `min_temp = 18` and
`max_temp = 30` and no restorable value, both restore branches produce the
minimum temperature 18, not the maximum 30 claimed for COOL/FAN_ONLY: the
final `if DRY ... else ...` overwrites the earlier COOL/FAN_ONLY
assignments. -/
theorem startup_default_cool_is_min :
    restore_target_no_old_state { exampleT with target_temp := none }
        (some HVACMode.cool) = some 18 ∧
    restore_target_no_old_state { exampleT with target_temp := none }
        (some HVACMode.fanOnly) = some 18 ∧
    restore_target_old_state { exampleT with target_temp := none }
        (some HVACMode.cool) none = some 18 ∧
    min_temp_prop { exampleT with target_temp := none } = 18 ∧
    max_temp_prop { exampleT with target_temp := none } = 30 ∧
    (18 : ℚ) ≠ 30 := by
  norm_num +decide [restore_target_no_old_state, restore_target_old_state,
    min_temp_prop, max_temp_prop, exampleT]

/-- Thermostat used for the C7 counterexample: `_fan_mode` is "on"
(not AUTO). -/
def fanOnT : Thermostat := { exampleT with fan_setting := FanSetting.fanOn }

/-- C7 counterexample: with `_fan_mode` not AUTO, a cooler-on command is
still accompanied by a synchronous fan-on command (the source has no
`_fan_mode` check in `_async_cooler_turn_on`), refuting "no fan command
accompanies cooler commands when fan_auto_mode is not AUTO"; and with
`_fan_mode` AUTO, the fan-off command precedes (does not follow) the
cooler-off command. -/
theorem cooler_fan_claim_counterexample :
    fanOnT.fan_setting ≠ FanSetting.auto ∧
    cooler_turn_on fanOnT =
      [Cmd.serviceOn "switch.fan", Cmd.serviceOn "switch.cooler"] ∧
    exampleT.fan_setting = FanSetting.auto ∧
    cooler_turn_off exampleT =
      [Cmd.serviceOff "switch.fan", Cmd.serviceOff "switch.cooler"] := by
  refine ⟨by decide, ?_, rfl, ?_⟩ <;>
    simp [cooler_turn_on, cooler_turn_off, fan_turn_on, fan_turn_off,
      fanOnT, exampleT]

/-- C7 (amended): with fan and cooler configured, the cooler-on path issues
the fan-on command synchronously immediately before the cooler-on command
regardless of `_fan_mode`; the cooler-off path issues the fan-off command
synchronously immediately before the cooler-off command exactly when
`_fan_mode` is AUTO.  No delayed fan task is scheduled on either path. -/
theorem cooler_fan_commands (t : Thermostat) (f c : String)
    (hf : t.fan_entity_id = some f) (hc : t.cooler_entity_id = some c) :
    cooler_turn_on t = [Cmd.serviceOn f, Cmd.serviceOn c] ∧
    cooler_turn_off t =
      (if t.fan_setting = FanSetting.auto
       then [Cmd.serviceOff f, Cmd.serviceOff c]
       else [Cmd.serviceOff c]) := by
  cases hfs : t.fan_setting <;>
    simp [cooler_turn_on, cooler_turn_off, fan_turn_on, fan_turn_off,
      hf, hc, hfs]

/-- C7 witness: concrete fan/cooler entities, `_fan_mode` AUTO. -/
theorem cooler_fan_commands_witness :
    cooler_turn_on exampleT =
      [Cmd.serviceOn "switch.fan", Cmd.serviceOn "switch.cooler"] ∧
    cooler_turn_off exampleT =
      (if exampleT.fan_setting = FanSetting.auto
       then [Cmd.serviceOff "switch.fan", Cmd.serviceOff "switch.cooler"]
       else [Cmd.serviceOff "switch.cooler"]) :=
  cooler_fan_commands exampleT "switch.fan" "switch.cooler" rfl rfl

/-- C8 counterexample: a sensor update whose state parses to no number (a
non-numeric string such as "abc", not "unavailable"/"unknown") leaves
`current_temperature` unchanged, but the control evaluation is NOT skipped:
with the heater off and the room too cold it runs on the stale temperature
and issues the heater-on command. -/
theorem sensor_nonnumeric_claim_counterexample :
    sensor_changed envAllOff exampleT (some (SensorState.reading none)) =
      Except.ok (exampleT,
        [Cmd.serviceOn "switch.heater", Cmd.schedFanOn], true) := by
  norm_num +decide [sensor_changed, update_temp, control_heating, activate,
    gate_check, decide_inactive_branch, decide_active_branch, neutral_tail,
    is_device_active, is_state_on, envAllOff, exampleT, heater_turn_on]

/-- C8 (amended): a `None`/unavailable/unknown sensor state skips the
evaluation entirely; any other non-numeric reading leaves
`current_temperature` unchanged and propagates no error, but the triggered
control evaluation still runs (against the previous temperature). -/
theorem sensor_nonnumeric_rejected (e : Env) (t : Thermostat)
    (h : t.active = true → t.cur_temp.isSome ∧ t.target_temp.isSome) :
    sensor_changed e t none = Except.ok (t, [], false) ∧
    sensor_changed e t (some SensorState.unavailable) =
      Except.ok (t, [], false) ∧
    sensor_changed e t (some SensorState.unknown) =
      Except.ok (t, [], false) ∧
    ∃ t2 cmds, sensor_changed e t (some (SensorState.reading none)) =
        Except.ok (t2, cmds, true) ∧ t2.cur_temp = t.cur_temp := by
  refine ⟨rfl, rfl, rfl, ?_⟩
  obtain ⟨cmds, hch⟩ := control_noTime_ok e t false h
  refine ⟨activate t, cmds, ?_, activate_cur_temp t⟩
  simp [sensor_changed, update_temp, hch]

/-- C8 witness: concrete instantiation of the amended claim. -/
theorem sensor_nonnumeric_rejected_witness :
    sensor_changed envAllOn exampleT none = Except.ok (exampleT, [], false) ∧
    sensor_changed envAllOn exampleT (some SensorState.unavailable) =
      Except.ok (exampleT, [], false) ∧
    sensor_changed envAllOn exampleT (some SensorState.unknown) =
      Except.ok (exampleT, [], false) ∧
    ∃ t2 cmds, sensor_changed envAllOn exampleT
        (some (SensorState.reading none)) =
        Except.ok (t2, cmds, true) ∧ t2.cur_temp = exampleT.cur_temp :=
  sensor_nonnumeric_rejected envAllOn exampleT (fun _ => ⟨rfl, rfl⟩)

/-- C9: from a non-away state with target `tau`, setting the preset to AWAY
saves `tau`, installs the configured away value and marks away; setting the
preset back to NONE restores exactly `tau`; requesting the currently active
preset (NONE while not away, AWAY while away) leaves the state unchanged and
issues nothing. -/
theorem preset_away_roundtrip (e : Env) (t : Thermostat) (tau a : ℚ)
    (hnaway : t.is_away = false) (htar : t.target_temp = some tau)
    (haway : t.away_temp = some a)
    (hcur : t.active = true → t.cur_temp.isSome) :
    (∃ t1 cmds1, set_preset_mode e t Preset.away = Except.ok (t1, cmds1) ∧
      t1.is_away = true ∧ t1.target_temp = some a ∧
      t1.saved_target_temp = some tau ∧
      ∃ t2 cmds2, set_preset_mode e t1 Preset.presetNone =
          Except.ok (t2, cmds2) ∧
        t2.is_away = false ∧ t2.target_temp = some tau) ∧
    set_preset_mode e t Preset.presetNone = Except.ok (t, []) ∧
    (∀ t3, t3.is_away = true →
      set_preset_mode e t3 Preset.away = Except.ok (t3, [])) := by
  refine ⟨?_, ?_, ?_⟩
  · have hstep1 : set_preset_mode e t Preset.away =
        control_heating e
          { t with
            is_away := true
            saved_target_temp := t.target_temp
            target_temp := t.away_temp } false true := by
      unfold set_preset_mode
      rw [if_pos ⟨rfl, by rw [hnaway]; rfl⟩]
    obtain ⟨cmds1, hch1⟩ := control_noTime_ok e
      { t with
        is_away := true
        saved_target_temp := t.target_temp
        target_temp := t.away_temp } true
      (fun ha => ⟨hcur ha, by show t.away_temp.isSome = true; rw [haway]; rfl⟩)
    refine ⟨_, cmds1, hstep1.trans hch1,
      (activate_is_away _).trans rfl,
      (activate_target_temp _).trans haway,
      (activate_saved_target_temp _).trans htar, ?_⟩
    have ht1away : (activate
        { t with
          is_away := true
          saved_target_temp := t.target_temp
          target_temp := t.away_temp }).is_away = true :=
      (activate_is_away _).trans rfl
    have hstep2 : set_preset_mode e (activate
        { t with
          is_away := true
          saved_target_temp := t.target_temp
          target_temp := t.away_temp }) Preset.presetNone =
        control_heating e
          { (activate
              { t with
                is_away := true
                saved_target_temp := t.target_temp
                target_temp := t.away_temp }) with
            is_away := false
            target_temp := (activate
              { t with
                is_away := true
                saved_target_temp := t.target_temp
                target_temp := t.away_temp }).saved_target_temp }
          false true := by
      unfold set_preset_mode
      rw [if_neg (by simp), if_pos ⟨rfl, ht1away⟩]
    obtain ⟨cmds2, hch2⟩ := control_noTime_ok e
      { (activate
          { t with
            is_away := true
            saved_target_temp := t.target_temp
            target_temp := t.away_temp }) with
        is_away := false
        target_temp := (activate
          { t with
            is_away := true
            saved_target_temp := t.target_temp
            target_temp := t.away_temp }).saved_target_temp } true
      (fun ha => by
        constructor
        · show (activate
            { t with
              is_away := true
              saved_target_temp := t.target_temp
              target_temp := t.away_temp }).cur_temp.isSome = true
          rw [activate_cur_temp]
          show t.cur_temp.isSome = true
          have hx : (activate
              { t with
                is_away := true
                saved_target_temp := t.target_temp
                target_temp := t.away_temp }).active = true := ha
          rw [activate_active] at hx
          rcases Bool.or_eq_true_iff.mp hx with hy | hy
          · exact hcur hy
          · exact (Bool.and_eq_true_iff.mp hy).1
        · show (activate
            { t with
              is_away := true
              saved_target_temp := t.target_temp
              target_temp := t.away_temp }).saved_target_temp.isSome = true
          rw [activate_saved_target_temp]
          show t.target_temp.isSome = true
          rw [htar]
          rfl)
    refine ⟨_, cmds2, hstep2.trans hch2,
      (activate_is_away _).trans rfl,
      (activate_target_temp _).trans
        ((activate_saved_target_temp _).trans htar)⟩
  · unfold set_preset_mode
    rw [if_neg (by simp), if_neg (by simp [hnaway])]
  · intro t3 h3
    unfold set_preset_mode
    rw [if_neg (by simp [h3]), if_neg (by simp)]

/-- C9 witness: with target 21 and away setpoint 16, AWAY installs 16 and
saves 21, NONE restores 21; equal-preset requests are no-ops. -/
theorem preset_away_roundtrip_witness :
    (∃ t1 cmds1, set_preset_mode envAllOff exampleT Preset.away =
        Except.ok (t1, cmds1) ∧
      t1.is_away = true ∧ t1.target_temp = some 16 ∧
      t1.saved_target_temp = some 21 ∧
      ∃ t2 cmds2, set_preset_mode envAllOff t1 Preset.presetNone =
          Except.ok (t2, cmds2) ∧
        t2.is_away = false ∧ t2.target_temp = some 21) ∧
    set_preset_mode envAllOff exampleT Preset.presetNone =
      Except.ok (exampleT, []) ∧
    (∀ t3, t3.is_away = true →
      set_preset_mode envAllOff t3 Preset.away = Except.ok (t3, [])) :=
  preset_away_roundtrip envAllOff exampleT 21 16 rfl rfl rfl (fun _ => rfl)

/-- C10: the `_hvac_list` construction removes FAN_ONLY from the template
unconditionally, so whenever construction succeeds FAN_ONLY is absent from
the available modes (even with a fan configured); and with no fan
configured the constructor attempts to remove FAN_ONLY a second time from a
list that no longer contains it, raising `ValueError`. -/
theorem fan_only_removed_and_init_crash
    (heater cooler fan dryer : Option String) :
    (∀ l, init_hvac_list heater cooler fan dryer = some l →
      HVACMode.fanOnly ∉ l) ∧
    (fan = none → init_hvac_list heater cooler fan dryer = none) := by
  cases cooler <;> cases heater <;> cases fan <;> cases dryer <;>
    simp +decide [init_hvac_list, removeFirst]

/-- C10 witness: FAN_ONLY is absent from the constructed mode list of a
fully configured thermostat, and construction with no fan fails. -/
theorem fan_only_removed_and_init_crash_witness :
    HVACMode.fanOnly ∉
      [HVACMode.cool, HVACMode.heat, HVACMode.dry, HVACMode.off] ∧
    init_hvac_list (some "switch.heater") (some "switch.cooler") none
      (some "switch.dryer") = none :=
  ⟨(fan_only_removed_and_init_crash (some "switch.heater")
      (some "switch.cooler") (some "switch.fan") (some "switch.dryer")).1
      [HVACMode.cool, HVACMode.heat, HVACMode.dry, HVACMode.off] rfl,
   (fan_only_removed_and_init_crash (some "switch.heater")
      (some "switch.cooler") none (some "switch.dryer")).2 rfl⟩

end DualMode
